import Mathlib

/-!
Verification of the Discord/Gemini bot `llm_bot.py`.

Texts are modelled as `List Char`. The embedding covers:
- `send_long_message` (the long-message chunker, lines 119-139),
- the response-formatting branch of `ask_gemini` (lines 154-173),
- `on_command_error` (lines 102-105) and the `ask` command dispatch,
- `on_message` (lines 107-116),
- the model-selection loop inside `on_ready` (lines 64-89).

Python builtins used by the source (`str.splitlines(keepends=True)`,
`str.strip` truthiness) are embedded faithfully, Unicode line boundaries
and whitespace included.
-/

namespace LlmBot

/-- Shorthand: the character list of a string literal. -/
def str (s : String) : List Char := s.toList

/-- Characters Python `str.strip()` / `str.isspace()` treats as whitespace. -/
def pySpaceChars : List Char :=
  [' ', '\t', '\n', '\x0b', '\x0c', '\r', '\x1c', '\x1d', '\x1e', '\x1f',
   '\x85', '\xa0', '\u1680', '\u2000', '\u2001', '\u2002', '\u2003', '\u2004',
   '\u2005', '\u2006', '\u2007', '\u2008', '\u2009', '\u200A', '\u2028',
   '\u2029', '\u202F', '\u205F', '\u3000']

/-- Decides whether `c` is whitespace in the sense of Python `str.strip()`. -/
def isPySpace (c : Char) : Bool := pySpaceChars.contains c

/-- Characters that terminate a line for Python `str.splitlines`
(`\r\n` is handled separately as a two-character boundary). -/
def lineBoundary (c : Char) : Bool :=
  c == '\n' || c == '\r' || c == '\x0b' || c == '\x0c' || c == '\x1c' ||
  c == '\x1d' || c == '\x1e' || c == '\x85' || c == '\u2028' || c == '\u2029'

/-- Extracts the first line (keeping its terminator) and the remainder of the
text, following Python `str.splitlines(keepends=True)`. -/
def nextLine : List Char → List Char × List Char
  | [] => ([], [])
  | c :: rest =>
    if c = '\r' then
      match rest with
      | '\n' :: rest2 => (['\r', '\n'], rest2)
      | _ => (['\r'], rest)
    else if lineBoundary c then ([c], rest)
    else ((c :: (nextLine rest).1), (nextLine rest).2)

/-- Fuel-bounded worker for `splitlines`; the fuel only serves structural
termination and is always instantiated with the text length, which
`nextLine` (consuming at least one character per step) can never exhaust. -/
def splitlinesFuel : Nat → List Char → List (List Char)
  | 0, _ => []
  | fuel + 1, l =>
    if l = [] then []
    else (nextLine l).1 :: splitlinesFuel fuel (nextLine l).2

/-- Python `text.splitlines(True)`: the list of lines of `text`, each keeping
its trailing line boundary. -/
def splitlines (l : List Char) : List (List Char) := splitlinesFuel l.length l

/-- The accumulation loop of `send_long_message` (lines 125-134): greedily
packs lines into chunks of at most 2000 characters; when adding the next line
would exceed the limit, the current chunk is closed and the line starts a new
one; after the loop a non-empty trailing chunk is appended. -/
def chunkLoop : List (List Char) → List Char → List (List Char)
  | [], current => if current = [] then [] else [current]
  | line :: rest, current =>
    if current.length + line.length ≤ 2000 then chunkLoop rest (current ++ line)
    else current :: chunkLoop rest line

/-- The list `chunks` built by `send_long_message` before the whitespace
filter at send time. -/
def accumulated_chunks (text : List Char) : List (List Char) :=
  chunkLoop (splitlines text) []

/-- The payloads `send_long_message` actually sends (lines 119-139): a text of
at most 2000 characters is sent as-is; otherwise the accumulated chunks are
sent, skipping those that are empty or whitespace-only (`if chunk.strip():`). -/
def send_long_message (text : List Char) : List (List Char) :=
  if text.length ≤ 2000 then [text]
  else (accumulated_chunks text).filter (fun chunk => chunk.any (fun c => !(isPySpace c)))

/-- One safety rating from the prompt feedback: the enum members `category`,
`probability` and `threshold` carry both an ordinal (for the `>` comparison)
and a display name (`.name`). -/
structure SafetyRating where
  category : List Char
  blocked : Bool
  probability : Nat
  probabilityName : List Char
  threshold : Nat
  thresholdName : List Char
deriving DecidableEq

/-- Outcome of `model.generate_content` as seen by `ask_gemini`: a response
with text, a response whose prompt feedback carries safety ratings, or a
response with neither. -/
inductive GenerationResult where
  | Text (s : List Char)
  | SafetyBlocked (ratings : List SafetyRating)
  | Empty
deriving DecidableEq

/-- The entry appended to `safety_issues` for one rating (lines 159-163):
blocked ratings report `BLOCKED`, unblocked ratings whose probability exceeds
their threshold report the probability name, others contribute nothing. -/
def safety_issue (r : SafetyRating) : Option (List Char) :=
  if r.blocked then
    some (r.category ++ str ": BLOCKED (Threshold: " ++ r.thresholdName ++ str ")")
  else if r.threshold < r.probability then
    some (r.category ++ str ": " ++ r.probabilityName ++ str " (Threshold: "
          ++ r.thresholdName ++ str ")")
  else none

/-- The `safety_issues` list built by the loop in lines 158-163. -/
def safety_issues (ratings : List SafetyRating) : List (List Char) :=
  ratings.filterMap safety_issue

/-- Python `sep.join(parts)`. -/
def joinSep (sep : List Char) : List (List Char) → List Char
  | [] => []
  | [x] => x
  | x :: y :: rest => x ++ sep ++ joinSep sep (y :: rest)

/-- The generic notice of line 173. -/
def no_response_notice : List Char :=
  str "I couldn\x27t generate a response for that question."

/-- The notice of line 171, for ratings that raise no safety issue. -/
def internal_issue_notice : List Char :=
  str "I couldn\x27t generate a response for that, possibly due to an internal issue or content that couldn\x27t be processed."

/-- The safety-block notice of lines 165-169. -/
def blocked_notice (issues : List (List Char)) : List Char :=
  str "My response was blocked due to safety concerns. Details: "
    ++ joinSep (str ", ") issues
    ++ str "\nPlease try rephrasing your question."

/-- The messages `ask_gemini` sends for a generation result (lines 154-173):
non-empty text is relayed through `send_long_message`; prompt feedback with
safety ratings produces one notice summarising the issues (or the
internal-issue notice when no rating raises one); everything else gets the
generic notice. -/
def format_response : GenerationResult → List (List Char)
  | .Text s =>
    if s ≠ [] then send_long_message s else [no_response_notice]
  | .SafetyBlocked ratings =>
    if ratings ≠ [] then
      if safety_issues ratings ≠ [] then [blocked_notice (safety_issues ratings)]
      else [internal_issue_notice]
    else [no_response_notice]
  | .Empty => [no_response_notice]

/-- The `on_command_error` handler (lines 102-105): it prints one line to the
console and sends nothing to the user. The result is the pair
(messages sent to the user, console log lines). -/
def on_command_error (error : List Char) : List (List Char) × List (List Char) :=
  ([], [str "Error: " ++ error])

/-- Outcome of dispatching one `ask` invocation: the messages sent to the
channel, the console log lines, and whether the generative API was called. -/
structure CommandRun where
  sent : List (List Char)
  logged : List (List Char)
  api_called : Bool
deriving DecidableEq

/-- Modelled from the spec: the command router that parses the `ask` command
argument is the discord.py framework, not part of `llm_bot.py` itself.
Per the router contract, `ask` has a required full-text argument; when it is
missing or empty the framework signals a usage error (the handler never runs),
which the source routes to `on_command_error`. Otherwise the handler
`ask_gemini` (lines 141-155) sends "Thinking...", calls the generative API
once, and sends the formatted result. -/
def run_ask_command (argument : List Char) (api : List Char → GenerationResult) :
    CommandRun :=
  if argument.all isPySpace then
    { sent := (on_command_error (str "question is a required argument that is missing.")).1,
      logged := (on_command_error (str "question is a required argument that is missing.")).2,
      api_called := false }
  else
    { sent := str "Thinking..." :: format_response (api argument),
      logged := [],
      api_called := true }

/-- An incoming Discord message as used by `on_message` (lines 107-116). -/
structure DiscordMessage where
  content : List Char
  author : List Char
  channel : List Char
  guild : List Char
deriving DecidableEq

/-- The `on_message` handler (lines 107-116): messages authored by the bot
itself are dropped before any logging or command processing; all others are
logged and passed to `bot.process_commands`. The result is the pair
(console log lines, whether the command router was invoked). -/
def on_message (bot_user : List Char) (m : DiscordMessage) :
    List (List Char) × Bool :=
  if m.author = bot_user then ([], false)
  else ([str "Received message: " ++ m.content,
         str "From user: " ++ m.author ++ str " in channel: " ++ m.channel
           ++ str " (Guild: " ++ m.guild ++ str ")"],
        true)

/-- One entry of `genai.list_models()`. -/
structure GeminiModel where
  name : List Char
  supported_generation_methods : List (List Char)
deriving DecidableEq

/-- The model-selection loop of `on_ready` (lines 68-76): scan the models,
skip those not supporting `generateContent`; on the exact name
`models/gemini-1.5-pro` choose `gemini-1.5-pro` and stop; on the exact name
`models/gemini-1.5-flash` record `gemini-1.5-flash` and keep scanning. The
accumulator is the running value of `model_name_to_use`. -/
def select_loop : List GeminiModel → Option (List Char) → Option (List Char)
  | [], acc => acc
  | m :: rest, acc =>
    if str "generateContent" ∈ m.supported_generation_methods then
      if m.name = str "models/gemini-1.5-pro" then some (str "gemini-1.5-pro")
      else if m.name = str "models/gemini-1.5-flash" then
        select_loop rest (some (str "gemini-1.5-flash"))
      else select_loop rest acc
    else select_loop rest acc

/-- The final value of `model_name_to_use` after the loop; `none` corresponds
to raising `ValueError("No suitable Gemini model found.")` (line 84). -/
def model_name_to_use (models : List GeminiModel) : Option (List Char) :=
  select_loop models none

/-- A model usable by the loop: it supports `generateContent`. -/
def gen_ok (m : GeminiModel) : Prop :=
  str "generateContent" ∈ m.supported_generation_methods

instance (m : GeminiModel) : Decidable (gen_ok m) := by
  unfold gen_ok
  infer_instance

theorem flatten_chunkLoop : ∀ (lines : List (List Char)) (current : List Char),
    (chunkLoop lines current).flatten = current ++ lines.flatten := by
  intro lines
  induction lines with
  | nil =>
    intro current
    by_cases h : current = [] <;> simp [chunkLoop, h]
  | cons line rest ih =>
    intro current
    simp only [chunkLoop]
    split
    · rw [ih]
      simp
    · rw [List.flatten_cons, ih]
      simp

theorem chunkLoop_mem : ∀ (lines : List (List Char)) (current c : List Char),
    c ∈ chunkLoop lines current →
    c.length ≤ 2000 ∨ (2000 < c.length ∧ (c = current ∨ c ∈ lines)) := by
  intro lines
  induction lines with
  | nil =>
    intro current c hc
    simp only [chunkLoop] at hc
    split at hc
    · simp at hc
    · rcases List.mem_singleton.mp hc with rfl
      rcases le_or_lt c.length 2000 with h | h
      · exact Or.inl h
      · exact Or.inr ⟨h, Or.inl rfl⟩
  | cons line rest ih =>
    intro current c hc
    simp only [chunkLoop] at hc
    split at hc
    · rename_i hlen
      rcases ih _ _ hc with h1 | ⟨h1, h2 | h2⟩
      · exact Or.inl h1
      · subst h2
        simp only [List.length_append] at h1
        omega
      · exact Or.inr ⟨h1, Or.inr (List.mem_cons_of_mem _ h2)⟩
    · rcases List.mem_cons.mp hc with rfl | hc2
      · rcases le_or_lt c.length 2000 with h | h
        · exact Or.inl h
        · exact Or.inr ⟨h, Or.inl rfl⟩
      · rcases ih _ _ hc2 with h1 | ⟨h1, h2 | h2⟩
        · exact Or.inl h1
        · subst h2
          exact Or.inr ⟨h1, Or.inr (List.mem_cons_self _ _)⟩
        · exact Or.inr ⟨h1, Or.inr (List.mem_cons_of_mem _ h2)⟩

theorem nextLine_append : ∀ l : List Char, (nextLine l).1 ++ (nextLine l).2 = l := by
  intro l
  induction l with
  | nil => rfl
  | cons c rest ih =>
    simp only [nextLine]
    split
    · split
      · simp_all
      · simp_all
    · split
      · simp
      · simpa using ih

theorem nextLine_snd_lt : ∀ l : List Char, l ≠ [] → (nextLine l).2.length < l.length := by
  intro l hl
  induction l with
  | nil => exact absurd rfl hl
  | cons c rest ih =>
    simp only [nextLine]
    split
    · split
      · simp_all [Nat.lt_succ_iff]
      · simp
    · split
      · simp
      · simp only [List.length_cons]
        rcases List.eq_nil_or_concat rest with hr | _
        · subst hr
          simp [nextLine]
        · have hne : rest ≠ [] := by
            rintro rfl
            simp_all
          exact Nat.lt_trans (ih hne) (Nat.lt_succ_self _)

theorem splitlinesFuel_flatten : ∀ (fuel : Nat) (l : List Char), l.length ≤ fuel →
    (splitlinesFuel fuel l).flatten = l := by
  intro fuel
  induction fuel with
  | zero =>
    intro l hl
    have : l = [] := List.eq_nil_of_length_eq_zero (Nat.le_zero.mp hl)
    subst this
    rfl
  | succ fuel ih =>
    intro l hl
    by_cases h : l = []
    · subst h
      simp [splitlinesFuel]
    · have hlt := nextLine_snd_lt l h
      simp only [splitlinesFuel, if_neg h, List.flatten_cons]
      rw [ih _ (by omega), nextLine_append]

theorem join_splitlines (l : List Char) : (splitlines l).flatten = l :=
  splitlinesFuel_flatten l.length l le_rfl

theorem flatten_accumulated_chunks (t : List Char) :
    (accumulated_chunks t).flatten = t := by
  rw [accumulated_chunks, flatten_chunkLoop]
  simpa using join_splitlines t

/-- C4: a text of at most 2000 characters is sent in exactly one piece,
unchanged. -/
theorem send_long_message_short (t : List Char) (h : t.length ≤ 2000) :
    send_long_message t = [t] := by
  simp [send_long_message, h]

theorem send_long_message_short_witness :
    (str "hi").length ≤ 2000 ∧ send_long_message (str "hi") = [str "hi"] :=
  ⟨by decide, send_long_message_short (str "hi") (by decide)⟩

/-- C10: for a text longer than 2000 characters, the chunk list built by the
accumulation loop of `send_long_message` — before the whitespace filter at
send time — concatenates back to the original text exactly, regardless of
line lengths. -/
theorem accumulated_chunks_concat (t : List Char) (_h : 2000 < t.length) :
    (accumulated_chunks t).flatten = t :=
  flatten_accumulated_chunks t

theorem accumulated_chunks_concat_witness :
    2000 < ((List.replicate 1999 'a' ++ ['\n']) ++ (List.replicate 1999 ' ' ++ ['\n'])).length ∧
    (accumulated_chunks ((List.replicate 1999 'a' ++ ['\n']) ++ (List.replicate 1999 ' ' ++ ['\n']))).flatten
      = (List.replicate 1999 'a' ++ ['\n']) ++ (List.replicate 1999 ' ' ++ ['\n']) := by
  have h : 2000 < ((List.replicate 1999 'a' ++ ['\n']) ++ (List.replicate 1999 ' ' ++ ['\n'])).length := by
    simp only [List.length_append, List.length_replicate, List.length_cons, List.length_nil]
    omega
  exact ⟨h, accumulated_chunks_concat _ h⟩

/-- C3: every payload sent by `send_long_message` either fits in the
2000-character limit or is a single original line of the text whose own
length exceeds the limit; over-long lines are never split further. -/
theorem send_long_message_chunk_bound (t c : List Char) (hc : c ∈ send_long_message t) :
    c.length ≤ 2000 ∨ (c ∈ splitlines t ∧ 2000 < c.length) := by
  unfold send_long_message at hc
  split at hc
  · rename_i h
    rcases List.mem_singleton.mp hc
    exact Or.inl h
  · have h1 := (List.mem_filter.mp hc).1
    rcases chunkLoop_mem _ _ _ h1 with h2 | ⟨h2, h3 | h3⟩
    · exact Or.inl h2
    · subst h3
      simp at h2
    · exact Or.inr ⟨h3, h2⟩

theorem send_long_message_chunk_bound_witness :
    str "ab" ∈ send_long_message (str "ab") ∧
    ((str "ab").length ≤ 2000 ∨ (str "ab" ∈ splitlines (str "ab") ∧ 2000 < (str "ab").length)) :=
  ⟨by decide, send_long_message_chunk_bound (str "ab") (str "ab") (by decide)⟩

theorem nextLine_replicate (c : Char) (hr : c ≠ '\r') (hb : lineBoundary c = false) :
    ∀ (k : Nat) (rest : List Char),
      nextLine (List.replicate k c ++ '\n' :: rest) = (List.replicate k c ++ ['\n'], rest) := by
  intro k
  induction k with
  | zero =>
    intro rest
    simp [nextLine, lineBoundary]
  | succ k ih =>
    intro rest
    rw [List.replicate_succ, List.cons_append]
    simp only [nextLine, if_neg hr, hb, Bool.false_eq_true, if_neg]
    rw [ih rest]
    simp

theorem splitlinesFuel_nil : ∀ fuel : Nat, splitlinesFuel fuel [] = [] := by
  intro fuel
  cases fuel <;> simp [splitlinesFuel]

theorem splitlinesFuel_irrel : ∀ (f₁ f₂ : Nat) (l : List Char),
    l.length ≤ f₁ → l.length ≤ f₂ → splitlinesFuel f₁ l = splitlinesFuel f₂ l := by
  intro f₁
  induction f₁ with
  | zero =>
    intro f₂ l h1 _
    have : l = [] := List.eq_nil_of_length_eq_zero (Nat.le_zero.mp h1)
    subst this
    rw [splitlinesFuel_nil, splitlinesFuel_nil]
  | succ f₁ ih =>
    intro f₂ l h1 h2
    by_cases h : l = []
    · subst h
      rw [splitlinesFuel_nil, splitlinesFuel_nil]
    · have hlt := nextLine_snd_lt l h
      cases f₂ with
      | zero =>
        have : l = [] := List.eq_nil_of_length_eq_zero (Nat.le_zero.mp h2)
        exact absurd this h
      | succ f₂ =>
        simp only [splitlinesFuel, if_neg h]
        rw [ih f₂ _ (by omega) (by omega)]

theorem splitlines_cons (l : List Char) (h : l ≠ []) :
    splitlines l = (nextLine l).1 :: splitlines ((nextLine l).2) := by
  have hlt := nextLine_snd_lt l h
  have hpos : 0 < l.length := List.length_pos.mpr h
  unfold splitlines
  rcases Nat.exists_eq_add_of_lt hpos with ⟨n, hn⟩
  rw [hn]
  simp only [Nat.zero_add, splitlinesFuel, if_neg h]
  rw [splitlinesFuel_irrel n (nextLine l).2.length _ (by omega) le_rfl]

theorem splitlines_two_line_example :
    splitlines ((List.replicate 1999 'a' ++ ['\n']) ++ (List.replicate 1999 ' ' ++ ['\n']))
      = [List.replicate 1999 'a' ++ ['\n'], List.replicate 1999 ' ' ++ ['\n']] := by
  have hA : ((List.replicate 1999 'a' ++ ['\n']) ++ (List.replicate 1999 ' ' ++ ['\n']))
      = List.replicate 1999 'a' ++ '\n' :: (List.replicate 1999 ' ' ++ ['\n']) := by
    rw [List.append_assoc]
    rfl
  have hnA := nextLine_replicate 'a' (by decide) (by decide) 1999
    (List.replicate 1999 ' ' ++ ['\n'])
  have hnB := nextLine_replicate ' ' (by decide) (by decide) 1999 ([] : List Char)
  have hne1 : ((List.replicate 1999 'a' ++ ['\n']) ++ (List.replicate 1999 ' ' ++ ['\n'])) ≠ [] := by
    intro hcontra
    have hlen := congrArg List.length hcontra
    simp only [List.length_append, List.length_replicate, List.length_cons,
      List.length_nil] at hlen
    omega
  have hne2 : (List.replicate 1999 ' ' ++ ['\n']) ≠ [] := by
    intro hcontra
    have hlen := congrArg List.length hcontra
    simp only [List.length_append, List.length_replicate, List.length_cons,
      List.length_nil] at hlen
    omega
  rw [splitlines_cons _ hne1]
  rw [hA, hnA]
  rw [splitlines_cons _ hne2]
  have hB : (List.replicate 1999 ' ' ++ ['\n']) = List.replicate 1999 ' ' ++ '\n' :: [] := rfl
  rw [hB, hnB]
  rfl

theorem accumulated_chunks_two_line_example :
    accumulated_chunks ((List.replicate 1999 'a' ++ ['\n']) ++ (List.replicate 1999 ' ' ++ ['\n']))
      = [List.replicate 1999 'a' ++ ['\n'], List.replicate 1999 ' ' ++ ['\n']] := by
  have hA : (List.replicate 1999 'a' ++ ['\n']).length = 2000 := by
    simp only [List.length_append, List.length_replicate, List.length_cons, List.length_nil]
  have hB : (List.replicate 1999 ' ' ++ ['\n']).length = 2000 := by
    simp only [List.length_append, List.length_replicate, List.length_cons, List.length_nil]
  have c1 : ([] : List Char).length + (List.replicate 1999 'a' ++ ['\n']).length ≤ 2000 := by
    rw [hA]
    decide
  have c2 : ¬ ((([] : List Char) ++ (List.replicate 1999 'a' ++ ['\n'])).length
      + (List.replicate 1999 ' ' ++ ['\n']).length ≤ 2000) := by
    rw [List.nil_append, hA, hB]
    decide
  have hne2 : (List.replicate 1999 ' ' ++ ['\n']) ≠ [] := by
    intro hcontra
    have hlen := congrArg List.length hcontra
    simp only [List.length_append, List.length_replicate, List.length_cons,
      List.length_nil] at hlen
    omega
  unfold accumulated_chunks
  rw [splitlines_two_line_example]
  simp only [chunkLoop]
  rw [if_pos c1, if_neg c2, if_neg hne2]
  simp only [List.nil_append]

theorem send_long_message_two_line_example :
    send_long_message ((List.replicate 1999 'a' ++ ['\n']) ++ (List.replicate 1999 ' ' ++ ['\n']))
      = [List.replicate 1999 'a' ++ ['\n']] := by
  have hT : ¬ (((List.replicate 1999 'a' ++ ['\n']) ++ (List.replicate 1999 ' ' ++ ['\n'])).length ≤ 2000) := by
    simp only [List.length_append, List.length_replicate, List.length_cons, List.length_nil]
    omega
  have pA : (List.replicate 1999 'a' ++ ['\n']).any (fun c => !(isPySpace c)) = true := by
    refine List.any_eq_true.mpr ⟨'a', List.mem_append_left _ ?_, by decide⟩
    exact List.mem_replicate.mpr ⟨by omega, rfl⟩
  have pB : (List.replicate 1999 ' ' ++ ['\n']).any (fun c => !(isPySpace c)) = false := by
    refine List.any_eq_false.mpr ?_
    intro x hx
    rcases List.mem_append.mp hx with h | h
    · rw [List.eq_of_mem_replicate h]
      decide
    · rcases List.mem_singleton.mp h
      decide
  unfold send_long_message
  rw [if_neg hT, accumulated_chunks_two_line_example]
  simp only [List.filter_cons, pA, pB, if_true, if_false, List.filter_nil,
    Bool.false_eq_true, if_neg]

/-- C1 counterexample: in the four-thousand-character text made of one line of
1999 `a`s and one line of 1999 spaces (each line, newline included, exactly
2000 characters, so no line exceeds the limit), `send_long_message` drops the
whitespace-only second chunk, and the concatenation of what it sends is not
the original text. -/
theorem send_long_message_drops_whitespace_only_chunk :
    (∀ line ∈ splitlines ((List.replicate 1999 'a' ++ ['\n']) ++ (List.replicate 1999 ' ' ++ ['\n'])),
      line.length ≤ 2000) ∧
    (send_long_message ((List.replicate 1999 'a' ++ ['\n']) ++ (List.replicate 1999 ' ' ++ ['\n']))).flatten
      ≠ (List.replicate 1999 'a' ++ ['\n']) ++ (List.replicate 1999 ' ' ++ ['\n']) := by
  constructor
  · intro line hline
    rw [splitlines_two_line_example] at hline
    rcases List.mem_cons.mp hline with rfl | hline2
    · simp only [List.length_append, List.length_replicate, List.length_cons, List.length_nil]
      omega
    · rcases List.mem_singleton.mp hline2
      simp only [List.length_append, List.length_replicate, List.length_cons, List.length_nil]
      omega
  · rw [send_long_message_two_line_example]
    intro hcontra
    have hlen := congrArg List.length hcontra
    simp only [List.flatten, List.append_nil, List.length_append, List.length_replicate,
      List.length_cons, List.length_nil] at hlen
    omega

/-- C1 (amended): for a text in which no line exceeds 2000 characters and in
which every chunk built by the accumulation loop contains at least one
non-whitespace character, concatenating the payloads `send_long_message`
sends reproduces the text exactly. -/
theorem send_long_message_concat_of_chunks_not_whitespace (t : List Char)
    (_hlines : ∀ line ∈ splitlines t, line.length ≤ 2000)
    (hchunks : ∀ c ∈ accumulated_chunks t, c.any (fun ch => !(isPySpace ch)) = true) :
    (send_long_message t).flatten = t := by
  unfold send_long_message
  split
  · simp
  · rw [List.filter_eq_self.mpr hchunks]
    exact flatten_accumulated_chunks t

theorem send_long_message_concat_of_chunks_not_whitespace_witness :
    (∀ line ∈ splitlines (str "hi"), line.length ≤ 2000) ∧
    (∀ c ∈ accumulated_chunks (str "hi"), c.any (fun ch => !(isPySpace ch)) = true) ∧
    (send_long_message (str "hi")).flatten = str "hi" :=
  ⟨by decide, by decide,
   send_long_message_concat_of_chunks_not_whitespace (str "hi") (by decide) (by decide)⟩

/-- C2 counterexample: the whitespace-only text consisting of a single space
has length at most 2000, so the fast path of `send_long_message` sends it
unchanged: a sent segment that is empty after trimming. -/
theorem send_long_message_sends_whitespace_only_short_text :
    send_long_message [' '] = [[' ']] ∧ ([' '].any (fun ch => !(isPySpace ch)) = false) := by
  decide

/-- C2 (amended): for a text longer than 2000 characters, every payload
`send_long_message` sends contains a non-whitespace character; texts of at
most 2000 characters bypass the filter and are sent unchanged, even when
whitespace-only. -/
theorem send_long_message_long_chunks_not_whitespace (t c : List Char)
    (ht : 2000 < t.length) (hc : c ∈ send_long_message t) :
    c.any (fun ch => !(isPySpace ch)) = true := by
  unfold send_long_message at hc
  rw [if_neg (by omega)] at hc
  exact (List.mem_filter.mp hc).2

theorem send_long_message_long_chunks_not_whitespace_witness :
    2000 < ((List.replicate 1999 'a' ++ ['\n']) ++ (List.replicate 1999 ' ' ++ ['\n'])).length ∧
    (List.replicate 1999 'a' ++ ['\n'])
      ∈ send_long_message ((List.replicate 1999 'a' ++ ['\n']) ++ (List.replicate 1999 ' ' ++ ['\n'])) ∧
    (List.replicate 1999 'a' ++ ['\n']).any (fun ch => !(isPySpace ch)) = true := by
  have ht : 2000 < ((List.replicate 1999 'a' ++ ['\n']) ++ (List.replicate 1999 ' ' ++ ['\n'])).length := by
    simp only [List.length_append, List.length_replicate, List.length_cons, List.length_nil]
    omega
  have hc : (List.replicate 1999 'a' ++ ['\n'])
      ∈ send_long_message ((List.replicate 1999 'a' ++ ['\n']) ++ (List.replicate 1999 ' ' ++ ['\n'])) := by
    rw [send_long_message_two_line_example]
    exact List.mem_singleton_self _
  exact ⟨ht, hc, send_long_message_long_chunks_not_whitespace _ _ ht hc⟩

/-- C5 counterexample: invoking `ask` with an empty argument calls no
generative API, but it also sends the user nothing at all — the error is only
printed to the console by `on_command_error`, so the user receives no usage
notice. -/
theorem ask_empty_sends_no_notice :
    (run_ask_command [] (fun _ => GenerationResult.Empty)).api_called = false ∧
    (run_ask_command [] (fun _ => GenerationResult.Empty)).sent = [] := by
  decide

/-- C5 (amended): when the `ask` argument is missing or whitespace-only, the
generative API is never called, no message is sent to the user, and the usage
error is only logged to the console by `on_command_error`. -/
theorem ask_empty_never_calls_api (arg : List Char) (api : List Char → GenerationResult)
    (h : arg.all isPySpace = true) :
    (run_ask_command arg api).api_called = false ∧
    (run_ask_command arg api).sent = [] ∧
    (run_ask_command arg api).logged ≠ [] := by
  unfold run_ask_command
  rw [if_pos h]
  exact ⟨rfl, rfl, by simp [on_command_error]⟩

theorem ask_empty_never_calls_api_witness :
    ([] : List Char).all isPySpace = true ∧
    ((run_ask_command [] (fun _ => GenerationResult.Empty)).api_called = false ∧
     (run_ask_command [] (fun _ => GenerationResult.Empty)).sent = [] ∧
     (run_ask_command [] (fun _ => GenerationResult.Empty)).logged ≠ []) :=
  ⟨by decide, ask_empty_never_calls_api [] (fun _ => GenerationResult.Empty) (by decide)⟩

/-- C6: formatting a safety-blocked result whose single rating is blocked in
category `HARM` at threshold `HIGH` yields exactly one notice, containing the
substring `HARM: BLOCKED (Threshold: HIGH)` and the rephrase suggestion. -/
theorem format_safety_blocked_harm :
    ∃ msg,
      format_response (GenerationResult.SafetyBlocked
        [{ category := str "HARM", blocked := true, probability := 0,
           probabilityName := str "NEGLIGIBLE", threshold := 3,
           thresholdName := str "HIGH" }]) = [msg] ∧
      (str "HARM: BLOCKED (Threshold: HIGH)").IsInfix msg ∧
      (str "Please try rephrasing your question.").IsInfix msg := by
  refine ⟨blocked_notice [str "HARM: BLOCKED (Threshold: HIGH)"], by decide, ?_, ?_⟩
  · exact ⟨str "My response was blocked due to safety concerns. Details: ",
           str "\nPlease try rephrasing your question.", by decide⟩
  · exact ⟨str "My response was blocked due to safety concerns. Details: HARM: BLOCKED (Threshold: HIGH)\n",
           [], by decide⟩

/-- C7: an empty successful text and an absent result format identically,
both to the generic could-not-generate notice. -/
theorem format_empty_text_eq_format_empty :
    format_response (GenerationResult.Text []) = format_response GenerationResult.Empty ∧
    format_response GenerationResult.Empty = [no_response_notice] :=
  ⟨rfl, rfl⟩

/-- C8: a message whose author is the bot itself is dropped by `on_message`
before any logging and before the command router is invoked. -/
theorem self_message_not_routed (bot_user : List Char) (m : DiscordMessage)
    (h : m.author = bot_user) :
    on_message bot_user m = ([], false) := by
  unfold on_message
  rw [if_pos h]

theorem self_message_not_routed_witness :
    ({ content := str "hi", author := str "bot", channel := str "c", guild := str "g" }
      : DiscordMessage).author = str "bot" ∧
    on_message (str "bot")
      { content := str "hi", author := str "bot", channel := str "c", guild := str "g" }
      = ([], false) :=
  ⟨rfl, self_message_not_routed (str "bot") _ rfl⟩

theorem select_loop_pro : ∀ (ms : List GeminiModel) (acc : Option (List Char)),
    (∃ m ∈ ms, gen_ok m ∧ m.name = str "models/gemini-1.5-pro") →
    select_loop ms acc = some (str "gemini-1.5-pro") := by
  intro ms
  induction ms with
  | nil =>
    intro acc h
    simp at h
  | cons m rest ih =>
    intro acc h
    simp only [select_loop]
    by_cases hg : str "generateContent" ∈ m.supported_generation_methods
    · rw [if_pos hg]
      by_cases hp : m.name = str "models/gemini-1.5-pro"
      · rw [if_pos hp]
      · rw [if_neg hp]
        have hrest : ∃ x ∈ rest, gen_ok x ∧ x.name = str "models/gemini-1.5-pro" := by
          rcases h with ⟨x, hx, hgx, hnx⟩
          rcases List.mem_cons.mp hx with rfl | hx2
          · exact absurd hnx hp
          · exact ⟨x, hx2, hgx, hnx⟩
        by_cases hf : m.name = str "models/gemini-1.5-flash"
        · rw [if_pos hf]
          exact ih _ hrest
        · rw [if_neg hf]
          exact ih _ hrest
    · rw [if_neg hg]
      have hrest : ∃ x ∈ rest, gen_ok x ∧ x.name = str "models/gemini-1.5-pro" := by
        rcases h with ⟨x, hx, hgx, hnx⟩
        rcases List.mem_cons.mp hx with rfl | hx2
        · exact absurd hgx hg
        · exact ⟨x, hx2, hgx, hnx⟩
      exact ih _ hrest

theorem select_loop_no_match : ∀ (ms : List GeminiModel) (acc : Option (List Char)),
    (¬ ∃ m ∈ ms, gen_ok m ∧ m.name = str "models/gemini-1.5-pro") →
    (¬ ∃ m ∈ ms, gen_ok m ∧ m.name = str "models/gemini-1.5-flash") →
    select_loop ms acc = acc := by
  intro ms
  induction ms with
  | nil =>
    intro acc _ _
    rfl
  | cons m rest ih =>
    intro acc hp hf
    simp only [select_loop]
    by_cases hg : str "generateContent" ∈ m.supported_generation_methods
    · rw [if_pos hg]
      have hpm : ¬ m.name = str "models/gemini-1.5-pro" := by
        intro hc
        exact hp ⟨m, List.mem_cons_self _ _, hg, hc⟩
      have hfm : ¬ m.name = str "models/gemini-1.5-flash" := by
        intro hc
        exact hf ⟨m, List.mem_cons_self _ _, hg, hc⟩
      rw [if_neg hpm, if_neg hfm]
      exact ih _ (fun ⟨x, hx, hgx, hnx⟩ => hp ⟨x, List.mem_cons_of_mem _ hx, hgx, hnx⟩)
        (fun ⟨x, hx, hgx, hnx⟩ => hf ⟨x, List.mem_cons_of_mem _ hx, hgx, hnx⟩)
    · rw [if_neg hg]
      exact ih _ (fun ⟨x, hx, hgx, hnx⟩ => hp ⟨x, List.mem_cons_of_mem _ hx, hgx, hnx⟩)
        (fun ⟨x, hx, hgx, hnx⟩ => hf ⟨x, List.mem_cons_of_mem _ hx, hgx, hnx⟩)

theorem select_loop_flash : ∀ (ms : List GeminiModel) (acc : Option (List Char)),
    (¬ ∃ m ∈ ms, gen_ok m ∧ m.name = str "models/gemini-1.5-pro") →
    (∃ m ∈ ms, gen_ok m ∧ m.name = str "models/gemini-1.5-flash") →
    select_loop ms acc = some (str "gemini-1.5-flash") := by
  intro ms
  induction ms with
  | nil =>
    intro acc _ h
    simp at h
  | cons m rest ih =>
    intro acc hp hf
    have hprest : ¬ ∃ x ∈ rest, gen_ok x ∧ x.name = str "models/gemini-1.5-pro" :=
      fun ⟨x, hx, hgx, hnx⟩ => hp ⟨x, List.mem_cons_of_mem _ hx, hgx, hnx⟩
    simp only [select_loop]
    by_cases hg : str "generateContent" ∈ m.supported_generation_methods
    · rw [if_pos hg]
      have hpm : ¬ m.name = str "models/gemini-1.5-pro" := by
        intro hc
        exact hp ⟨m, List.mem_cons_self _ _, hg, hc⟩
      rw [if_neg hpm]
      by_cases hfm : m.name = str "models/gemini-1.5-flash"
      · rw [if_pos hfm]
        by_cases hfrest : ∃ x ∈ rest, gen_ok x ∧ x.name = str "models/gemini-1.5-flash"
        · exact ih _ hprest hfrest
        · exact select_loop_no_match rest _ hprest hfrest
      · rw [if_neg hfm]
        have hfrest : ∃ x ∈ rest, gen_ok x ∧ x.name = str "models/gemini-1.5-flash" := by
          rcases hf with ⟨x, hx, hgx, hnx⟩
          rcases List.mem_cons.mp hx with rfl | hx2
          · exact absurd hnx hfm
          · exact ⟨x, hx2, hgx, hnx⟩
        exact ih _ hprest hfrest
    · rw [if_neg hg]
      have hfrest : ∃ x ∈ rest, gen_ok x ∧ x.name = str "models/gemini-1.5-flash" := by
        rcases hf with ⟨x, hx, hgx, hnx⟩
        rcases List.mem_cons.mp hx with rfl | hx2
        · exact absurd hgx hg
        · exact ⟨x, hx2, hgx, hnx⟩
      exact ih _ hprest hfrest

/-- C9: the model-selection loop chooses `gemini-1.5-pro` whenever a model
supporting `generateContent` named exactly `models/gemini-1.5-pro` appears
anywhere in the sequence; failing that, it chooses `gemini-1.5-flash`
whenever `models/gemini-1.5-flash` appears; failing both, it selects no model
(the source then raises its no-suitable-model error). -/
theorem model_selection_policy (ms : List GeminiModel) :
    ((∃ m ∈ ms, gen_ok m ∧ m.name = str "models/gemini-1.5-pro") →
      model_name_to_use ms = some (str "gemini-1.5-pro")) ∧
    ((¬ ∃ m ∈ ms, gen_ok m ∧ m.name = str "models/gemini-1.5-pro") →
     (∃ m ∈ ms, gen_ok m ∧ m.name = str "models/gemini-1.5-flash") →
      model_name_to_use ms = some (str "gemini-1.5-flash")) ∧
    ((¬ ∃ m ∈ ms, gen_ok m ∧ m.name = str "models/gemini-1.5-pro") →
     (¬ ∃ m ∈ ms, gen_ok m ∧ m.name = str "models/gemini-1.5-flash") →
      model_name_to_use ms = none) :=
  ⟨fun h => select_loop_pro ms none h,
   fun h1 h2 => select_loop_flash ms none h1 h2,
   fun h1 h2 => select_loop_no_match ms none h1 h2⟩

theorem model_selection_policy_witness :
    (∃ m ∈ [({ name := str "models/gemini-1.5-flash",
               supported_generation_methods := [str "generateContent"] } : GeminiModel),
            { name := str "models/gemini-1.5-pro",
              supported_generation_methods := [str "generateContent"] }],
        gen_ok m ∧ m.name = str "models/gemini-1.5-pro") ∧
    model_name_to_use
      [({ name := str "models/gemini-1.5-flash",
          supported_generation_methods := [str "generateContent"] } : GeminiModel),
       { name := str "models/gemini-1.5-pro",
         supported_generation_methods := [str "generateContent"] }]
      = some (str "gemini-1.5-pro") :=
  ⟨by decide,
   (model_selection_policy
     [({ name := str "models/gemini-1.5-flash",
         supported_generation_methods := [str "generateContent"] } : GeminiModel),
      { name := str "models/gemini-1.5-pro",
        supported_generation_methods := [str "generateContent"] }]).1 (by decide)⟩
